import Mathlib

/-!
Verification of the LeadMagnet job-execution core against its design
specification.

The definitions below are a shallow embedding of the Python sources:

* `generate_health_insurance.py` — the `GeminiClient.generate_companies`
  retry loop (error classification, capped exponential backoff, terminal
  wrapping, post-processing of the model output);
* `api.py` — request validation (`LeadRequest`), the in-memory job store
  (`job_storage`), the background execution unit
  (`generate_leads_background`), asynchronous submission
  (`generate_leads_async`) and export (`export_leads`).

External collaborators (the chat-completions call itself, `json.loads`,
the web scraper, the wall clock) are passed in as parameters, so every
definition is executable on concrete inputs.
-/

namespace LeadMagnet

/-! ### String helpers modelling the Python primitives used by the source -/

/-- Helper for the substring test: does `pat` occur in the char list? -/
def hasSubAux (pat : List Char) : List Char → Bool
  | [] => pat.isEmpty
  | c :: t => pat.isPrefixOf (c :: t) || hasSubAux pat t

/-- Python `pat in s` (substring containment). -/
def containsSub (s pat : String) : Bool := hasSubAux pat.data s.data

/-- Python `s.lower()` (per-character lowercasing). -/
def lowerStr (s : String) : String := String.mk (s.data.map Char.toLower)

/-- Python `s.strip()` (drop leading and trailing whitespace). -/
def stripStr (s : String) : String :=
  String.mk (((s.data.dropWhile Char.isWhitespace).reverse.dropWhile
    Char.isWhitespace).reverse)

/-! ### Errors of the external call, as inspected by `generate_companies`

`generate_companies` inspects a raised exception `e` through:
the extracted status code (`e.status_code` / `e.response.status_code` /
`e.code`, merged here into one optional `error_code`), the rendered
message `str(e)`, and the two `isinstance` checks
(`RateLimitError`, `APIConnectionError`). -/

structure ApiErr where
  error_code : Option Int
  message : String
  rateLimitInstance : Bool
  connectionInstance : Bool
  deriving DecidableEq, Repr

instance : Inhabited ApiErr := ⟨⟨none, "", false, false⟩⟩

/-- Lines 115-122 of `generate_health_insurance.py`: the 503/overload test.
Note `'503' in str(e)` checks the original message; the word patterns
check `error_str = str(e).lower()`. -/
def is_503_error (e : ApiErr) : Bool :=
  e.error_code == some 503 ||
  containsSub e.message "503" ||
  containsSub (lowerStr e.message) "overloaded" ||
  containsSub (lowerStr e.message) "unavailable" ||
  containsSub (lowerStr e.message) "service unavailable" ||
  containsSub (lowerStr e.message) "model is overloaded"

/-- Lines 124-135: the rate-limit (429) test. -/
def is_rate_limit (e : ApiErr) : Bool :=
  e.error_code == some 429 ||
  e.rateLimitInstance ||
  containsSub (lowerStr e.message) "rate limit" ||
  containsSub (lowerStr e.message) "too many requests"

/-- Lines 137-148: the connection/timeout test. -/
def is_connection_error (e : ApiErr) : Bool :=
  e.connectionInstance ||
  containsSub (lowerStr e.message) "connection" ||
  containsSub (lowerStr e.message) "timeout" ||
  containsSub (lowerStr e.message) "network"

/-- Line 151: the retry decision used by the loop. -/
def isRetryable (e : ApiErr) : Bool :=
  is_503_error e || is_rate_limit e || is_connection_error e

/-- The four classes of the Backoff Classifier (spec section 4.1). -/
inductive ErrClass where
  | permanent
  | retryableOverload
  | retryableRateLimit
  | retryableConnection
  deriving DecidableEq, Repr

/-- The Backoff Classifier: the source predicates `is_503_error`,
`is_rate_limit`, `is_connection_error` applied in the priority order of
spec section 4.1 (overload, then rate limit, then connection, else
permanent). -/
def classify (e : ApiErr) : ErrClass :=
  if is_503_error e then .retryableOverload
  else if is_rate_limit e then .retryableRateLimit
  else if is_connection_error e then .retryableConnection
  else .permanent

/-- Lines 154 and 159-161: the `error_code or 'UNKNOWN'` interpolation
(Python `or` treats both `None` and `0` as falsy). -/
def codeStr (e : ApiErr) : String :=
  match e.error_code with
  | some c => if c = 0 then "UNKNOWN" else toString c
  | none => "UNKNOWN"

/-- The message of the exception raised at both terminal raise sites:
`Error code: {error_code or UNKNOWN} - {str(e)}`. -/
def wrapError (e : ApiErr) : String :=
  "Error code: " ++ codeStr e ++ " - " ++ e.message

/-! ### The retry loop of `generate_companies` (lines 84-177)

The external call is a parameter `fn : Nat → Except ApiErr α` giving the
outcome of the attempt with index `attempt` (0-based, as in
`for attempt in range(max_retries)`). The result records the value or
raised message, the number of attempts actually made, and every
`time.sleep` delay in order. -/

structure RetryResult (α : Type) where
  result : Except String α
  attempts : Nat
  sleeps : List Nat
  deriving Repr

/-- One pass of the `for attempt in range(max_retries)` loop; `fuel` is
the number of loop iterations remaining (`max_retries - attempt`). -/
def retryLoop {α : Type} (fn : Nat → Except ApiErr α)
    (maxRetries initialDelay : Nat) :
    Nat → Nat → List Nat → RetryResult α
  | attempt, 0, sleeps =>
    ⟨.error ("Failed to get response after " ++ toString maxRetries ++
      " attempts"), attempt, sleeps⟩
  | attempt, fuel + 1, sleeps =>
    match fn attempt with
    | .ok v => ⟨.ok v, attempt + 1, sleeps⟩
    | .error e =>
      if !(is_503_error e || is_rate_limit e || is_connection_error e) then
        ⟨.error (wrapError e), attempt + 1, sleeps⟩
      else if attempt = maxRetries - 1 then
        ⟨.error (wrapError e), attempt + 1, sleeps⟩
      else
        retryLoop fn maxRetries initialDelay (attempt + 1) fuel
          (sleeps ++ [min (initialDelay * 2 ^ attempt) 60])

/-- `CallWithRetry`: the whole retry loop with the given bounds
(`generate_companies` defaults: `max_retries=5`, `initial_delay=2`). -/
def callWithRetry {α : Type} (fn : Nat → Except ApiErr α)
    (maxRetries initialDelay : Nat) : RetryResult α :=
  retryLoop fn maxRetries initialDelay 0 maxRetries []

/-- Does this attempt outcome fail with an error the loop retries on? -/
def failsRetryably {α : Type} : Except ApiErr α → Bool
  | .ok _ => false
  | .error e => isRetryable e

/-- The capped exponential schedule: the delay slept after the failed
attempt with 0-based index `a` is `min(initialDelay * 2 ^ a, 60)`. -/
def backoffDelay (initialDelay a : Nat) : Nat :=
  min (initialDelay * 2 ^ a) 60

/-! ### Behaviour of the retry loop -/

/-- Unfolding the schedule of delays by one attempt. -/
theorem backoffSchedule_succ (d attempt N : Nat) :
    (List.range (N + 1)).map (fun i => backoffDelay d (attempt + i)) =
      backoffDelay d attempt ::
        (List.range N).map (fun i => backoffDelay d (attempt + 1 + i)) := by
  simp only [List.range_succ_eq_map, List.map_cons, List.map_map, Nat.add_zero]
  refine congrArg (fun l => backoffDelay d attempt :: l) ?_
  refine List.map_congr_left ?_
  intro i _
  show backoffDelay d (attempt + (i + 1)) = backoffDelay d (attempt + 1 + i)
  rw [show attempt + (i + 1) = attempt + 1 + i from by omega]

/-- If every attempt in `[attempt, attempt + N)` fails retryably and the
attempt `attempt + N` succeeds (all within bounds), the loop returns the
success value, with one sleep per failed attempt on the capped
exponential schedule. -/
theorem retryLoop_succeeds {α : Type} (fn : Nat → Except ApiErr α)
    (d maxR : Nat) (v : α) :
    ∀ (N attempt : Nat) (sleeps : List Nat),
      attempt + N < maxR →
      (∀ a, attempt ≤ a → a < attempt + N → failsRetryably (fn a) = true) →
      fn (attempt + N) = .ok v →
      retryLoop fn maxR d attempt (maxR - attempt) sleeps =
        ⟨.ok v, attempt + N + 1,
          sleeps ++ (List.range N).map (fun i => backoffDelay d (attempt + i))⟩ := by
  intro N
  induction N with
  | zero =>
    intro attempt sleeps hlt _hfail hsucc
    have hfe : maxR - attempt = (maxR - attempt - 1) + 1 := by omega
    rw [hfe]
    simp only [retryLoop, Nat.add_zero] at hsucc ⊢
    rw [hsucc]
    simp
  | succ N ih =>
    intro attempt sleeps hlt hfail hsucc
    have hfe : maxR - attempt = (maxR - attempt - 1) + 1 := by omega
    rw [hfe]
    have hfa : failsRetryably (fn attempt) = true :=
      hfail attempt (Nat.le_refl _) (by omega)
    cases he : fn attempt with
    | ok w => rw [he] at hfa; simp [failsRetryably] at hfa
    | error e =>
      rw [he] at hfa
      have hor : (is_503_error e || is_rate_limit e || is_connection_error e)
          = true := hfa
      have hne : ¬ attempt = maxR - 1 := by omega
      simp only [retryLoop, he]
      rw [if_neg (by simp [hor]), if_neg hne]
      have hfe2 : maxR - attempt - 1 = maxR - (attempt + 1) := by omega
      rw [hfe2]
      have ihx := ih (attempt + 1)
        (sleeps ++ [min (d * 2 ^ attempt) 60]) (by omega)
        (fun a ha1 ha2 => hfail a (by omega) (by omega))
        (by rw [show attempt + 1 + N = attempt + (N + 1) from by omega]
            exact hsucc)
      rw [ihx]
      simp only [RetryResult.mk.injEq]
      refine ⟨trivial, by omega, ?_⟩
      rw [backoffSchedule_succ, List.append_assoc, List.singleton_append]
      rfl

/-- C1: with maxAttempts = 5 and initialDelay = 2, a target that fails
retryably on attempts `0 .. N-1` (for `N < 5`) and succeeds on attempt
`N` yields the success value after exactly `N + 1` attempts, with
exactly `N` sleeps, the i-th (1-based) lasting
`min(2 * 2 ^ (i - 1), 60)` seconds. -/
theorem callWithRetry_retryable_then_success {α : Type}
    (fn : Nat → Except ApiErr α) (v : α) (N : Nat) (hN : N < 5)
    (hfail : ∀ a, a < N → failsRetryably (fn a) = true)
    (hsucc : fn N = .ok v) :
    callWithRetry fn 5 2 =
      ⟨.ok v, N + 1, (List.range N).map (fun i => min (2 * 2 ^ i) 60)⟩ := by
  unfold callWithRetry
  have h := retryLoop_succeeds fn 2 5 v N 0 [] (by omega)
    (fun a ha1 ha2 => hfail a (by omega)) (by simpa using hsucc)
  simpa [backoffDelay] using h

/-- A call target that fails retryably (overloaded) twice, then succeeds. -/
def stubTwoOverloadsThenOk : Nat → Except ApiErr Nat := fun a =>
  if a < 2 then .error ⟨none, "the model is overloaded", false, false⟩
  else .ok 42

/-- Witness for C1 at `N = 2`: two retryable failures then success give
the value after 3 attempts with sleeps `[2, 4]`. -/
theorem callWithRetry_retryable_then_success_witness :
    callWithRetry stubTwoOverloadsThenOk 5 2 = ⟨.ok 42, 3, [2, 4]⟩ := by
  have h := callWithRetry_retryable_then_success stubTwoOverloadsThenOk 42 2
    (by omega) (fun a ha => by interval_cases a <;> decide) rfl
  exact h

/-- If every attempt up to the bound fails retryably, the loop runs out
of attempts and raises the wrap of the last attempt's error. `k` counts
the loop iterations (and hence sleeps) still to come before the last
attempt. -/
theorem retryLoop_exhausts {α : Type} (fn : Nat → Except ApiErr α)
    (d maxR : Nat) (e : ApiErr) :
    ∀ (k attempt : Nat) (sleeps : List Nat),
      attempt + k + 1 = maxR →
      (∀ a, attempt ≤ a → a < maxR → failsRetryably (fn a) = true) →
      fn (maxR - 1) = .error e →
      retryLoop fn maxR d attempt (maxR - attempt) sleeps =
        ⟨.error (wrapError e), maxR,
          sleeps ++ (List.range k).map (fun i => backoffDelay d (attempt + i))⟩ := by
  intro k
  induction k with
  | zero =>
    intro attempt sleeps hone hfail hlast
    have ha : attempt = maxR - 1 := by omega
    have hfe : maxR - attempt = 0 + 1 := by omega
    rw [hfe]
    have hfa : failsRetryably (fn (maxR - 1)) = true :=
      hfail (maxR - 1) (by omega) (by omega)
    rw [hlast] at hfa
    have hor : (is_503_error e || is_rate_limit e || is_connection_error e)
        = true := hfa
    simp only [retryLoop, ha, hlast]
    rw [if_neg (by simp [hor]), if_pos trivial]
    simp only [RetryResult.mk.injEq, List.range_zero, List.map_nil,
      List.append_nil]
    exact ⟨trivial, by omega, trivial⟩
  | succ k ih =>
    intro attempt sleeps hone hfail hlast
    have hfe : maxR - attempt = (maxR - attempt - 1) + 1 := by omega
    rw [hfe]
    have hfa : failsRetryably (fn attempt) = true :=
      hfail attempt (Nat.le_refl _) (by omega)
    cases he : fn attempt with
    | ok w => rw [he] at hfa; simp [failsRetryably] at hfa
    | error e' =>
      rw [he] at hfa
      have hor : (is_503_error e' || is_rate_limit e' || is_connection_error e')
          = true := hfa
      have hne : ¬ attempt = maxR - 1 := by omega
      simp only [retryLoop, he]
      rw [if_neg (by simp [hor]), if_neg hne]
      have hfe2 : maxR - attempt - 1 = maxR - (attempt + 1) := by omega
      rw [hfe2]
      have ihx := ih (attempt + 1)
        (sleeps ++ [min (d * 2 ^ attempt) 60]) (by omega)
        (fun a ha1 ha2 => hfail a (by omega) ha2) hlast
      rw [ihx]
      simp only [RetryResult.mk.injEq]
      refine ⟨trivial, trivial, ?_⟩
      rw [backoffSchedule_succ, List.append_assoc, List.singleton_append]
      rfl

/-- C2 (amended): with maxAttempts = 5, a target that fails with a
Retryable-classified error on every attempt is invoked exactly 5 times;
the returned terminal error is the wrap
`Error code: {code or UNKNOWN} - {message}` of the last attempt's
error, preserving that error's status code and message text (from which
its classification was computed); the attempt count itself is not part
of the returned error (it is only logged), and the four backoff sleeps
are `[2, 4, 8, 16]`. -/
theorem callWithRetry_exhausted {α : Type} (fn : Nat → Except ApiErr α)
    (e : ApiErr) (hfail : ∀ a, failsRetryably (fn a) = true)
    (hlast : fn 4 = .error e) :
    callWithRetry fn 5 2 =
      ⟨.error ("Error code: " ++ codeStr e ++ " - " ++ e.message), 5,
        [2, 4, 8, 16]⟩ := by
  unfold callWithRetry
  have h := retryLoop_exhausts fn 2 5 e 4 0 [] (by omega)
    (fun a ha1 ha2 => hfail a) (by simpa using hlast)
  simpa [backoffDelay, wrapError] using h

/-- A call target that fails with a retryable (overloaded) error on
every attempt. -/
def stubAlwaysOverloaded : Nat → Except ApiErr Nat :=
  fun _ => .error ⟨none, "overloaded", false, false⟩

/-- Witness for C2 (amended): the always-overloaded stub is attempted 5
times and the terminal error wraps the overload error. -/
theorem callWithRetry_exhausted_witness :
    callWithRetry stubAlwaysOverloaded 5 2 =
      ⟨.error "Error code: UNKNOWN - overloaded", 5, [2, 4, 8, 16]⟩ := by
  have h := callWithRetry_exhausted stubAlwaysOverloaded
    ⟨none, "overloaded", false, false⟩ (fun _ => rfl) rfl
  exact h

/-- Counterexample to C2 as stated: the terminal error does not preserve
the number of attempts made. Running the same always-retryable target
with maxAttempts = 5 and with maxAttempts = 3 makes 5 and 3 attempts
respectively, yet returns the identical terminal error
`Error code: UNKNOWN - overloaded`, so the returned error cannot encode
the attempt count (it is recorded only in the log). -/
theorem callWithRetry_error_forgets_attempt_count :
    (callWithRetry stubAlwaysOverloaded 5 2).attempts = 5 ∧
    (callWithRetry stubAlwaysOverloaded 3 2).attempts = 3 ∧
    (callWithRetry stubAlwaysOverloaded 5 2).result =
      Except.error "Error code: UNKNOWN - overloaded" ∧
    (callWithRetry stubAlwaysOverloaded 3 2).result =
      Except.error "Error code: UNKNOWN - overloaded" ∧
    containsSub "Error code: UNKNOWN - overloaded" "5" = false ∧
    containsSub "Error code: UNKNOWN - overloaded" "attempts" = false :=
  ⟨rfl, rfl, rfl, rfl, rfl, rfl⟩

/-! ### The Backoff Classifier as a total four-way classification -/

/-- C3: `classify` is total — every error value is mapped to exactly one
of the four classes — and the priority order puts overload above
connection: it agrees with the retry decision of line 151
(`Permanent` exactly when the error is not retryable), and any error
whose lowered message contains an overload pattern (`overloaded` or
`unavailable`) is classified `RetryableOverload` and never
`RetryableConnection`, even when the message also contains
`connection`. -/
theorem classify_total_overload_precedence (e : ApiErr) :
    (classify e = .permanent ∨ classify e = .retryableOverload ∨
     classify e = .retryableRateLimit ∨ classify e = .retryableConnection) ∧
    (classify e = .permanent ↔ isRetryable e = false) ∧
    ((containsSub (lowerStr e.message) "overloaded" = true ∨
      containsSub (lowerStr e.message) "unavailable" = true) →
      containsSub (lowerStr e.message) "connection" = true →
      classify e = .retryableOverload ∧
        classify e ≠ .retryableConnection) := by
  refine ⟨?_, ?_, ?_⟩
  · unfold classify
    split
    · exact Or.inr (Or.inl rfl)
    · split
      · exact Or.inr (Or.inr (Or.inl rfl))
      · split
        · exact Or.inr (Or.inr (Or.inr rfl))
        · exact Or.inl rfl
  · unfold classify isRetryable
    constructor
    · intro h
      by_cases h1 : is_503_error e = true
      · simp [h1] at h
      · by_cases h2 : is_rate_limit e = true
        · simp [h1, h2] at h
        · by_cases h3 : is_connection_error e = true
          · simp [h1, h2, h3] at h
          · simp only [Bool.not_eq_true] at h1 h2 h3
            simp [h1, h2, h3]
    · intro h
      simp only [Bool.or_eq_false_iff] at h
      simp [h.1.1, h.1.2, h.2]
  · intro hover _hconn
    have h503 : is_503_error e = true := by
      unfold is_503_error
      rcases hover with h | h <;> simp [h]
    simp [classify, h503]

/-- Witness for C3: an error whose message contains both the overload
pattern `unavailable` and the connection pattern `connection` classifies
as overload, not as connection. -/
theorem classify_total_overload_precedence_witness :
    classify ⟨none, "connection unavailable", false, false⟩ =
      .retryableOverload :=
  ((classify_total_overload_precedence
      ⟨none, "connection unavailable", false, false⟩).2.2
    (Or.inr (by decide)) (by decide)).1

/-! ### Post-processing of the model output (lines 179-194)

`json.loads` is an external library call, passed in as
`parse : String → Option α`. On parse failure `generate_companies` does
NOT raise: it returns the payload
`{"error": "Failed to parse response", "raw_response": ...}`, modelled
by the `parseFailure` constructor. -/

inductive GenPayload (α : Type) where
  | parsed (val : α)
  | parseFailure (raw : String)
  deriving DecidableEq, Repr

/-- Lines 181-185: strip a markdown code fence from the response text. -/
def cleanResponse (text : String) : String :=
  if containsSub text "```json" then
    stripStr ((((text.splitOn "```json").getD 1 "").splitOn "```").getD 0 "")
  else if containsSub text "```" then
    stripStr ((((text.splitOn "```").getD 1 "").splitOn "```").getD 0 "")
  else text

/-- Lines 187-194: parse the cleaned response; on failure return the
error-marker payload instead of raising. -/
def parseModelOutput {α : Type} (parse : String → Option α)
    (text : String) : GenPayload α :=
  match parse (cleanResponse text) with
  | some v => .parsed v
  | none => .parseFailure (cleanResponse text)

/-- The whole of `generate_companies`: the retry loop around the external
call, then post-processing of the successful response text. -/
def generateCompanies {α : Type} (fn : Nat → Except ApiErr String)
    (parse : String → Option α) : Except String (GenPayload α) :=
  match (callWithRetry fn 5 2).result with
  | .error msg => .error msg
  | .ok text => .ok (parseModelOutput parse text)

/-- Python falsiness of `os.getenv('GEMINI_API_KEY')`: absent or empty. -/
def apiKeyMissing : Option String → Bool
  | none => true
  | some s => s == ""

/-- `generate_leads_sync` (api.py lines 147-163): key check, generation,
optional scraping enhancement; any raised error is wrapped into the
HTTPException detail `Lead generation failed: ...`. -/
def generateLeadsSync {α : Type} (apiKey : Option String)
    (fn : Nat → Except ApiErr String) (parse : String → Option α)
    (enhance : GenPayload α → GenPayload α) (enableScraping : Bool) :
    Except String (GenPayload α) :=
  if apiKeyMissing apiKey then
    .error "Lead generation failed: GEMINI_API_KEY not configured. Please set it in your .env file"
  else
    match generateCompanies fn parse with
    | .error msg => .error ("Lead generation failed: " ++ msg)
    | .ok res => .ok (if enableScraping then enhance res else res)

/-! ### Request validation (api.py `LeadRequest`, lines 42-82)

FastAPI/pydantic validates the request body before any endpoint code
runs: `Field` length/bound constraints, then the `validator` functions
(`number` in 1..50; `industry`/`country` stripped and non-empty). -/

structure RawLeadRequest where
  industry : String
  number : Int
  country : String
  enable_web_scraping : Bool
  deriving DecidableEq, Repr

/-- A request that passed validation (strings already stripped). -/
structure LeadRequestV where
  industry : String
  number : Int
  country : String
  enable_web_scraping : Bool
  deriving DecidableEq, Repr

def validateLeadRequest (r : RawLeadRequest) : Except String LeadRequestV :=
  if r.industry.length < 2 then
    .error "industry: ensure this value has at least 2 characters"
  else if r.industry.length > 100 then
    .error "industry: ensure this value has at most 100 characters"
  else if r.number < 1 then
    .error "Number must be at least 1"
  else if r.number > 50 then
    .error "Number cannot exceed 50 (rate limiting)"
  else if r.country.length < 2 then
    .error "country: ensure this value has at least 2 characters"
  else if r.country.length > 100 then
    .error "country: ensure this value has at most 100 characters"
  else if stripStr r.industry = "" then
    .error "Field cannot be empty"
  else if stripStr r.country = "" then
    .error "Field cannot be empty"
  else
    .ok ⟨stripStr r.industry, r.number, stripStr r.country,
      r.enable_web_scraping⟩

/-- Invalid caller input in the sense of the error taxonomy (spec
section 7): count outside 1..50, or empty/whitespace-only industry or
country. -/
def invalidParams (r : RawLeadRequest) : Prop :=
  r.number < 1 ∨ r.number > 50 ∨ stripStr r.industry = "" ∨
    stripStr r.country = ""

/-! ### Job records and the in-memory store (api.py lines 130-181)

Timestamps are opaque clock renderings (`datetime.utcnow()` output),
passed in as strings. `job_storage` is a Python dict: insertion either
replaces the entry with the same key or appends a new one. The payload
type is a parameter `ρ`. -/

inductive JobStatus where
  | queued
  | processing
  | completed
  | failed
  deriving DecidableEq, Repr

def statusString : JobStatus → String
  | .queued => "queued"
  | .processing => "processing"
  | .completed => "completed"
  | .failed => "failed"

def statusRank : JobStatus → Nat
  | .queued => 0
  | .processing => 1
  | .completed => 2
  | .failed => 2

def isTerminalStatus : JobStatus → Bool
  | .completed => true
  | .failed => true
  | _ => false

structure JobRecord (ρ : Type) where
  status : JobStatus
  industry : String
  number : Int
  country : String
  enable_web_scraping : Bool
  created_at : String
  started_at : Option String
  completed_at : Option String
  result : Option ρ
  error : Option String
  deriving Repr

/-- Lines 272-279: the record inserted by `generate_leads_async`. -/
def createJobRecord {ρ : Type} (req : LeadRequestV) (now : String) :
    JobRecord ρ :=
  { status := .queued, industry := req.industry, number := req.number,
    country := req.country,
    enable_web_scraping := req.enable_web_scraping, created_at := now,
    started_at := none, completed_at := none, result := none,
    error := none }

/-- Lines 169-170: `status = processing; started_at = now`. The two
assignments have no suspension point between them, so they are modelled
as one atomic update. -/
def transitionToProcessing {ρ : Type} (r : JobRecord ρ) (now : String) :
    JobRecord ρ :=
  { r with status := .processing, started_at := some now }

/-- Lines 174-176: `status = completed; completed_at = now;
result = ...` (atomic, no suspension point between the writes). -/
def completeJob {ρ : Type} (r : JobRecord ρ) (now : String) (res : ρ) :
    JobRecord ρ :=
  { r with
    status := .completed
    completed_at := some now
    result := some res }

/-- Lines 179-181: `status = failed; error = ...;
completed_at = now` (atomic, no suspension point between the writes). -/
def failJob {ρ : Type} (r : JobRecord ρ) (err : String) (now : String) :
    JobRecord ρ :=
  { r with
    status := .failed
    error := some err
    completed_at := some now }

/-- `generate_leads_background` (lines 166-181) acting on the record of
its job: transition to processing, then complete with the result or
fail with the stringified exception. -/
def runBackground {ρ : Type} (r : JobRecord ρ)
    (outcome : Except String ρ) (t1 t2 : String) : JobRecord ρ :=
  let p := transitionToProcessing r t1
  match outcome with
  | .ok v => completeJob p t2 v
  | .error e => failJob p e t2

/-- The successive states of one job record under the code's only
mutation sequence: creation (Queued), the processing transition, and
the terminal transition performed by its background task. -/
def jobTrace {ρ : Type} (req : LeadRequestV) (outcome : Except String ρ)
    (t0 t1 t2 : String) : List (JobRecord ρ) :=
  let q : JobRecord ρ := createJobRecord req t0
  [q, transitionToProcessing q t1, runBackground q outcome t1 t2]

/-- The job store: a Python dict keyed by job id (insertion order kept,
assignment replaces). -/
abbrev Store (ρ : Type) : Type := List (String × JobRecord ρ)

def storeFind {ρ : Type} (s : Store ρ) (k : String) :
    Option (JobRecord ρ) :=
  (List.find? (fun p => p.1 == k) s).map (fun p => p.2)

/-- `job_storage[job_id] = rec`: replace an existing entry or append. -/
def storeInsert {ρ : Type} (s : Store ρ) (k : String) (v : JobRecord ρ) :
    Store ρ :=
  if (List.find? (fun p => p.1 == k) s).isSome then
    s.map (fun p => if p.1 == k then (k, v) else p)
  else s ++ [(k, v)]

/-- Line 269: `job_id = f"job_{datetime.utcnow().timestamp()}_{request.industry[:10]}"`,
with `ts` the rendered clock reading. -/
def mkJobId (ts : String) (industry : String) : String :=
  "job_" ++ ts ++ "_" ++ industry.take 10

/-- Responses of the asynchronous submit endpoint. -/
inductive ApiResponse where
  | validationError (detail : String)
  | serverError (detail : String)
  | accepted (job_id : String)
  deriving DecidableEq, Repr

def isValidationError : ApiResponse → Bool
  | .validationError _ => true
  | _ => false

structure AsyncResult (ρ : Type) where
  response : ApiResponse
  store : Store ρ
  tasks : List String
  deriving Repr

/-- `generate_leads_async` (lines 257-299): body validation (by
FastAPI, before the handler runs), then the API-key check, then id
allocation, record insertion and background-task scheduling. `tasks`
lists the job ids handed to `background_tasks.add_task`. -/
def submitAsync {ρ : Type} (apiKey : Option String) (s : Store ρ)
    (ts now : String) (raw : RawLeadRequest) : AsyncResult ρ :=
  match validateLeadRequest raw with
  | .error d => ⟨.validationError d, s, []⟩
  | .ok req =>
    if apiKeyMissing apiKey then
      ⟨.serverError "GEMINI_API_KEY not configured. Please set it in your .env file",
        s, []⟩
    else
      let id := mkJobId ts req.industry
      ⟨.accepted id, storeInsert s id (createJobRecord req now), [id]⟩

/-- Responses of the synchronous generate endpoint. -/
inductive SyncResponse (α : Type) where
  | validationError (detail : String)
  | httpError (detail : String)
  | ok (data : GenPayload α)
  deriving Repr

def isSyncValidationError {α : Type} : SyncResponse α → Bool
  | .validationError _ => true
  | _ => false

structure SyncResult (α : Type) where
  response : SyncResponse α
  genCalled : Bool
  deriving Repr

/-- `generate_leads` (lines 210-254): body validation, then the
synchronous pipeline; `genCalled` records whether the external Generate
collaborator was reached. -/
def syncEndpoint {α : Type} (apiKey : Option String)
    (fn : Nat → Except ApiErr String) (parse : String → Option α)
    (enhance : GenPayload α → GenPayload α) (raw : RawLeadRequest) :
    SyncResult α :=
  match validateLeadRequest raw with
  | .error d => ⟨.validationError d, false⟩
  | .ok req =>
    match generateLeadsSync apiKey fn parse enhance
        req.enable_web_scraping with
    | .error d => ⟨.httpError d, !(apiKeyMissing apiKey)⟩
    | .ok res => ⟨.ok res, true⟩

/-- Results of the export endpoint (`export_leads`, lines 336-359). -/
inductive ExportResult (ρ : Type) where
  | notFound
  | jobNotTerminal (currentStatus : String)
  | payload (result : Option ρ)
  | notImplemented
  deriving Repr

/-- `export_leads`: 404 on unknown id, 400 with the current status when
the job is not completed, otherwise the stored result (for json
format; csv is 501). -/
def exportLeads {ρ : Type} (s : Store ρ) (job_id : String)
    (format : String) : ExportResult ρ :=
  match storeFind s job_id with
  | none => .notFound
  | some job =>
    if statusString job.status ≠ "completed" then
      .jobNotTerminal (statusString job.status)
    else if format == "json" then .payload job.result
    else .notImplemented

/-! ### Sample data used by witnesses and counterexamples -/

def sampleReq : LeadRequestV := ⟨"robotics", 3, "Germany", false⟩

def sampleRawReq : RawLeadRequest := ⟨"robotics", 3, "Germany", false⟩

def sampleCompletedRec : JobRecord Nat :=
  { status := .completed, industry := "robotics", number := 3,
    country := "Germany", enable_web_scraping := false,
    created_at := "T0", started_at := some "T1",
    completed_at := some "T2", result := some 7, error := none }

def sampleProcessingRec : JobRecord Nat :=
  { status := .processing, industry := "robotics", number := 3,
    country := "Germany", enable_web_scraping := false,
    created_at := "T0", started_at := some "T1", completed_at := none,
    result := none, error := none }

/-! ### C4: what happens to a job when the model output is unparseable -/

/-- C4 (amended): unparseable model output is not surfaced as a
failure. When the external call succeeds but the (cleaned) response
text does not parse, `generate_companies` returns the error-marker
payload `{"error": "Failed to parse response", "raw_response": ...}`
instead of raising; the background task treats this as success, and the
job transitions to Completed with that payload stored in `result`,
while the `error` field stays unset and no Failed transition occurs. -/
theorem runBackground_unparseable {α : Type} (req : LeadRequestV)
    (apiKey : Option String) (fn : Nat → Except ApiErr String)
    (parse : String → Option α) (enhance : GenPayload α → GenPayload α)
    (text t0 t1 t2 : String)
    (hkey : apiKeyMissing apiKey = false)
    (hok : (callWithRetry fn 5 2).result = .ok text)
    (hparse : parse (cleanResponse text) = none) :
    (runBackground (createJobRecord req t0)
        (generateLeadsSync apiKey fn parse enhance false) t1 t2).status
        = .completed ∧
    (runBackground (createJobRecord req t0)
        (generateLeadsSync apiKey fn parse enhance false) t1 t2).result
        = some (.parseFailure (cleanResponse text)) ∧
    (runBackground (createJobRecord req t0)
        (generateLeadsSync apiKey fn parse enhance false) t1 t2).error
        = none := by
  have houtcome : generateLeadsSync apiKey fn parse enhance false =
      .ok (.parseFailure (cleanResponse text)) := by
    simp [generateLeadsSync, generateCompanies, parseModelOutput, hkey,
      hok, hparse]
  rw [houtcome]
  simp [runBackground, completeJob, transitionToProcessing,
    createJobRecord]

/-- Witness for C4 (amended): a concrete unparseable run completes the
job with the error-marker payload. -/
theorem runBackground_unparseable_witness :
    (runBackground (createJobRecord sampleReq "T0")
        (generateLeadsSync (some "key") (fun _ => .ok "oops not json")
          (fun _ => (none : Option Nat)) id false) "T1" "T2").status
        = .completed ∧
    (runBackground (createJobRecord sampleReq "T0")
        (generateLeadsSync (some "key") (fun _ => .ok "oops not json")
          (fun _ => (none : Option Nat)) id false) "T1" "T2").result
        = some (.parseFailure "oops not json") ∧
    (runBackground (createJobRecord sampleReq "T0")
        (generateLeadsSync (some "key") (fun _ => .ok "oops not json")
          (fun _ => (none : Option Nat)) id false) "T1" "T2").error
        = none :=
  runBackground_unparseable sampleReq (some "key")
    (fun _ => .ok "oops not json") (fun _ => (none : Option Nat)) id
    "oops not json" "T0" "T1" "T2" rfl rfl rfl

/-- The final record of a job whose model output cannot be parsed. -/
def unparseableJobFinal : JobRecord (GenPayload Nat) :=
  runBackground (createJobRecord ⟨"health insurance", 10, "USA", false⟩ "T0")
    (generateLeadsSync (some "key") (fun _ => .ok "this is not json")
      (fun _ => (none : Option Nat)) id false) "T1" "T2"

/-- Counterexample to C4 as stated: on unparseable model output the job
does NOT transition to Failed with the error preserved — it transitions
to Completed, the error-marker payload is stored as the result, and the
`error` field stays empty. -/
theorem unparseable_output_not_failed :
    unparseableJobFinal.status = .completed ∧
    unparseableJobFinal.status ≠ .failed ∧
    unparseableJobFinal.result
      = some (.parseFailure "this is not json") ∧
    unparseableJobFinal.error = none :=
  ⟨rfl, by decide, rfl, rfl⟩

/-! ### C5: status monotonicity and terminal immutability along the
code's mutation sequence

The only writes ever applied to a job record are those of
`generate_leads_async` (creation) and of its own background task
(`generate_leads_background`); `jobTrace` is exactly that sequence of
states. -/

/-- C5: along the code's mutation sequence of one job record, the
status only ever advances (Queued, then Processing, then a terminal
state) and never regresses, and from the first state whose status is
terminal onward the record never changes again. -/
theorem jobTrace_monotone_terminal {ρ : Type} (req : LeadRequestV)
    (outcome : Except String ρ) (t0 t1 t2 : String) :
    ∀ i j : Nat, i ≤ j → j < (jobTrace req outcome t0 t1 t2).length →
      statusRank ((jobTrace req outcome t0 t1 t2).getD i
          (createJobRecord req t0)).status ≤
        statusRank ((jobTrace req outcome t0 t1 t2).getD j
          (createJobRecord req t0)).status ∧
      (isTerminalStatus ((jobTrace req outcome t0 t1 t2).getD i
          (createJobRecord req t0)).status = true →
        (jobTrace req outcome t0 t1 t2).getD j (createJobRecord req t0)
          = (jobTrace req outcome t0 t1 t2).getD i
            (createJobRecord req t0)) := by
  intro i j hij hj
  have hlen : (jobTrace req outcome t0 t1 t2).length = 3 := rfl
  rw [hlen] at hj
  interval_cases j <;> interval_cases i <;> cases outcome <;>
    simp [jobTrace, runBackground, statusRank, isTerminalStatus,
      transitionToProcessing, completeJob, failJob, createJobRecord]

/-- Witness for C5 at `i = 1`, `j = 2` of a successfully completing
job. -/
theorem jobTrace_monotone_terminal_witness :
    statusRank ((jobTrace sampleReq (.ok (5 : Nat)) "T0" "T1" "T2").getD
        1 (createJobRecord sampleReq "T0")).status ≤
      statusRank ((jobTrace sampleReq (.ok (5 : Nat)) "T0" "T1" "T2").getD
        2 (createJobRecord sampleReq "T0")).status ∧
    (isTerminalStatus ((jobTrace sampleReq (.ok (5 : Nat)) "T0" "T1" "T2").getD
        1 (createJobRecord sampleReq "T0")).status = true →
      (jobTrace sampleReq (.ok (5 : Nat)) "T0" "T1" "T2").getD 2
          (createJobRecord sampleReq "T0")
        = (jobTrace sampleReq (.ok (5 : Nat)) "T0" "T1" "T2").getD 1
            (createJobRecord sampleReq "T0")) :=
  jobTrace_monotone_terminal sampleReq (.ok (5 : Nat)) "T0" "T1" "T2" 1 2
    (by omega) (by decide)

/-! ### C6: the transition operations carry no guards -/

/-- C6 (amended): the store's transition operations are unguarded — each
unconditionally applies its mutation whatever the record's current
status, and no InvalidTransition error exists in the code. (Invalid
transitions do not occur in practice only because the background task is
the sole driver and applies them in order.) -/
theorem transitions_unguarded {ρ : Type} (r : JobRecord ρ)
    (now : String) (res : ρ) (err : String) :
    (transitionToProcessing r now).status = .processing ∧
    (completeJob r now res).status = .completed ∧
    (completeJob r now res).result = some res ∧
    (failJob r err now).status = .failed ∧
    (failJob r err now).error = some err :=
  ⟨rfl, rfl, rfl, rfl, rfl⟩

/-- Counterexample to C6 as stated: applying Complete to a record that
is still Queued does not fail with InvalidTransition and does not leave
the record unmodified — it silently sets the status to Completed and
stores the result. -/
theorem complete_on_queued_silently_mutates :
    (createJobRecord sampleReq "T0" : JobRecord Nat).status = .queued ∧
    (completeJob (createJobRecord sampleReq "T0" : JobRecord Nat) "T1" 7).status
      = .completed ∧
    (completeJob (createJobRecord sampleReq "T0" : JobRecord Nat) "T1" 7).status
      ≠ (createJobRecord sampleReq "T0" : JobRecord Nat).status ∧
    (completeJob (createJobRecord sampleReq "T0" : JobRecord Nat) "T1" 7).result
      = some 7 :=
  ⟨rfl, rfl, by decide, rfl⟩

/-! ### C7: uniqueness of job identifiers -/

/-- Lookups at a different key are unaffected by the replace branch of
a dict assignment. -/
theorem storeFind_map_replace {ρ : Type} (s : Store ρ) (k k2 : String)
    (v : JobRecord ρ) (h : k2 ≠ k) :
    storeFind (s.map (fun p => if p.1 == k then (k, v) else p)) k2 =
      storeFind s k2 := by
  induction s with
  | nil => rfl
  | cons p t ih =>
    simp only [List.map_cons]
    unfold storeFind at ih ⊢
    have hk2 : (k == k2) = false := by
      simp only [beq_eq_false_iff_ne]
      exact fun hh => h hh.symm
    by_cases hpk : (p.1 == k) = true
    · have hp1 : p.1 = k := by simpa using hpk
      have hp2f : (p.1 == k2) = false := by rw [hp1]; exact hk2
      rw [if_pos hpk]
      simp only [List.find?, hk2, hp2f]
      exact ih
    · rw [if_neg hpk]
      by_cases hp2 : (p.1 == k2) = true
      · simp only [List.find?, hp2]
      · have hp2f : (p.1 == k2) = false := by simpa using hp2
        simp only [List.find?, hp2f]
        exact ih

/-- Lookups at a different key are unaffected by the append branch of a
dict assignment. -/
theorem storeFind_append_single {ρ : Type} (s : Store ρ) (k k2 : String)
    (v : JobRecord ρ) (h : k2 ≠ k) :
    storeFind (s ++ [(k, v)]) k2 = storeFind s k2 := by
  induction s with
  | nil =>
    unfold storeFind
    have hk2 : (k == k2) = false := by
      simp only [beq_eq_false_iff_ne]
      exact fun hh => h hh.symm
    rw [List.nil_append]
    simp only [List.find?, hk2]
  | cons p t ih =>
    unfold storeFind at ih ⊢
    rw [List.cons_append]
    by_cases hp2 : (p.1 == k2) = true
    · simp only [List.find?, hp2]
    · have hp2f : (p.1 == k2) = false := by simpa using hp2
      simp only [List.find?, hp2f]
      exact ih

/-- A dict assignment under a fresh key leaves every other key's lookup
unchanged. -/
theorem storeFind_insert_ne {ρ : Type} (s : Store ρ) (k k2 : String)
    (v : JobRecord ρ) (h : k2 ≠ k) :
    storeFind (storeInsert s k v) k2 = storeFind s k2 := by
  unfold storeInsert
  split
  · exact storeFind_map_replace s k k2 v h
  · exact storeFind_append_single s k k2 v h

/-- Distinct rendered clock readings give distinct job identifiers for
the same industry. -/
theorem mkJobId_ne_of_ts_ne (ts1 ts2 ind : String) (h : ts1 ≠ ts2) :
    mkJobId ts1 ind ≠ mkJobId ts2 ind := by
  intro heq
  apply h
  have hd : ("job_" ++ ts1 ++ "_" ++ ind.take 10).data =
      ("job_" ++ ts2 ++ "_" ++ ind.take 10).data :=
    congrArg String.data heq
  simp only [String.data_append] at hd
  have h1 := (List.append_inj' hd rfl).1
  have h2 := (List.append_inj' h1 rfl).1
  have hts := List.append_cancel_left h2
  cases ts1
  cases ts2
  exact congrArg String.mk (by simpa using hts)

/-- C7 (amended): submissions whose rendered clock timestamps differ
(and share the request) receive distinct job identifiers, both are
accepted, and the second insertion does not overwrite the first
record. Uniqueness holds only as far as the clock rendering
distinguishes the submissions: the identifier is derived solely from
`utcnow().timestamp()` and the first 10 characters of the industry. -/
theorem submitAsync_distinct_ts_unique_ids {ρ : Type}
    (apiKey : Option String) (s : Store ρ) (ts1 now1 ts2 now2 : String)
    (raw : RawLeadRequest) (req : LeadRequestV)
    (hv : validateLeadRequest raw = .ok req)
    (hk : apiKeyMissing apiKey = false) (hts : ts1 ≠ ts2) :
    (submitAsync apiKey s ts1 now1 raw).response =
      .accepted (mkJobId ts1 req.industry) ∧
    (submitAsync apiKey (submitAsync apiKey s ts1 now1 raw).store ts2
        now2 raw).response = .accepted (mkJobId ts2 req.industry) ∧
    mkJobId ts1 req.industry ≠ mkJobId ts2 req.industry ∧
    storeFind (submitAsync apiKey (submitAsync apiKey s ts1 now1 raw).store
        ts2 now2 raw).store (mkJobId ts1 req.industry) =
      storeFind (submitAsync apiKey s ts1 now1 raw).store
        (mkJobId ts1 req.industry) := by
  have hne := mkJobId_ne_of_ts_ne ts1 ts2 req.industry hts
  refine ⟨?_, ?_, hne, ?_⟩
  · simp [submitAsync, hv, hk]
  · simp [submitAsync, hv, hk]
  · simp only [submitAsync, hv, hk]
    simp only [Bool.false_eq_true, if_false]
    exact storeFind_insert_ne _ (mkJobId ts2 req.industry)
      (mkJobId ts1 req.industry) _ hne

/-- Witness for C7 (amended): two submissions at clock readings
`1700.5` and `1700.6` get the distinct ids `job_1700.5_robotics` and
`job_1700.6_robotics`, and the first record survives the second
insertion. -/
theorem submitAsync_distinct_ts_unique_ids_witness :
    (submitAsync (some "key") ([] : Store Nat) "1700.5" "T0"
        sampleRawReq).response = .accepted "job_1700.5_robotics" ∧
    (submitAsync (some "key")
        (submitAsync (some "key") ([] : Store Nat) "1700.5" "T0"
          sampleRawReq).store "1700.6" "T1" sampleRawReq).response =
      .accepted "job_1700.6_robotics" ∧
    ("job_1700.5_robotics" : String) ≠ "job_1700.6_robotics" ∧
    storeFind (submitAsync (some "key")
        (submitAsync (some "key") ([] : Store Nat) "1700.5" "T0"
          sampleRawReq).store "1700.6" "T1" sampleRawReq).store
        "job_1700.5_robotics" =
      storeFind (submitAsync (some "key") ([] : Store Nat) "1700.5" "T0"
          sampleRawReq).store "job_1700.5_robotics" := by
  have h := submitAsync_distinct_ts_unique_ids (some "key")
    ([] : Store Nat) "1700.5" "T0" "1700.6" "T1" sampleRawReq
    ⟨"robotics", 3, "Germany", false⟩ rfl rfl (by decide)
  exact h

/-- Counterexample to C7 as stated: two distinct Submit calls that
observe the same rendered clock reading `1700.5` with the same industry
are both accepted with the SAME identifier `job_1700.5_robotics`; the
store still holds a single record afterwards, and its `created_at` is
that of the second call — the second submission overwrote the first
job record. -/
theorem submitAsync_same_clock_overwrites :
    (submitAsync (some "key") ([] : Store Nat) "1700.5" "T0"
        sampleRawReq).response = .accepted "job_1700.5_robotics" ∧
    (submitAsync (some "key")
        (submitAsync (some "key") ([] : Store Nat) "1700.5" "T0"
          sampleRawReq).store "1700.5" "T1" sampleRawReq).response =
      .accepted "job_1700.5_robotics" ∧
    (submitAsync (some "key")
        (submitAsync (some "key") ([] : Store Nat) "1700.5" "T0"
          sampleRawReq).store "1700.5" "T1" sampleRawReq).store.length
      = 1 ∧
    (storeFind (submitAsync (some "key")
        (submitAsync (some "key") ([] : Store Nat) "1700.5" "T0"
          sampleRawReq).store "1700.5" "T1" sampleRawReq).store
        "job_1700.5_robotics").map (fun r => r.created_at) = some "T1" :=
  ⟨rfl, rfl, rfl, rfl⟩

/-! ### C8: invalid requests are rejected before any job exists -/

/-- Requests with invalid parameters never pass validation. -/
theorem validateLeadRequest_rejects (r : RawLeadRequest)
    (h : invalidParams r) :
    ∃ d, validateLeadRequest r = .error d := by
  unfold validateLeadRequest
  split
  · exact ⟨_, rfl⟩
  · split
    · exact ⟨_, rfl⟩
    · split
      · exact ⟨_, rfl⟩
      · split
        · exact ⟨_, rfl⟩
        · split
          · exact ⟨_, rfl⟩
          · split
            · exact ⟨_, rfl⟩
            · split
              · exact ⟨_, rfl⟩
              · split
                · exact ⟨_, rfl⟩
                · rename_i h1 h2 h3 h4 h5 h6 h7 h8
                  rcases h with h | h | h | h
                  · exact absurd h h3
                  · exact absurd h h4
                  · exact absurd h h7
                  · exact absurd h h8

/-- C8: a request with invalid parameters (count outside 1..50, or
empty/whitespace-only industry or country) is rejected by both the
synchronous and the asynchronous path with a validation error before
anything else happens: the sync path never reaches the external
Generate collaborator, and the async path leaves the job store
unchanged and schedules no background task (so no job record tied to
the request ever exists). -/
theorem invalid_request_rejected {α ρ : Type} (apiKey : Option String)
    (fn : Nat → Except ApiErr String) (parse : String → Option α)
    (enhance : GenPayload α → GenPayload α) (s : Store ρ)
    (ts now : String) (raw : RawLeadRequest) (h : invalidParams raw) :
    isSyncValidationError (syncEndpoint apiKey fn parse enhance raw).response
      = true ∧
    (syncEndpoint apiKey fn parse enhance raw).genCalled = false ∧
    isValidationError (submitAsync apiKey s ts now raw).response = true ∧
    (submitAsync apiKey s ts now raw).store = s ∧
    (submitAsync apiKey s ts now raw).tasks = [] := by
  obtain ⟨d, hd⟩ := validateLeadRequest_rejects raw h
  refine ⟨?_, ?_, ?_, ?_, ?_⟩ <;>
    simp [syncEndpoint, submitAsync, hd, isSyncValidationError,
      isValidationError]

/-- Witness for C8: the spec's concrete scenario, a submit with
`count = 0`, is rejected on both paths; the async store stays empty and
no task is scheduled. -/
theorem invalid_request_rejected_witness :
    isSyncValidationError (syncEndpoint (some "key")
        (fun _ => .ok "txt") (fun _ => (none : Option Nat)) id
        ⟨"health insurance", 0, "USA", false⟩).response = true ∧
    (syncEndpoint (some "key") (fun _ => .ok "txt")
        (fun _ => (none : Option Nat)) id
        ⟨"health insurance", 0, "USA", false⟩).genCalled = false ∧
    isValidationError (submitAsync (some "key") ([] : Store Nat) "1700.5"
        "T0" ⟨"health insurance", 0, "USA", false⟩).response = true ∧
    (submitAsync (some "key") ([] : Store Nat) "1700.5" "T0"
        ⟨"health insurance", 0, "USA", false⟩).store = [] ∧
    (submitAsync (some "key") ([] : Store Nat) "1700.5" "T0"
        ⟨"health insurance", 0, "USA", false⟩).tasks = [] :=
  invalid_request_rejected (some "key") (fun _ => .ok "txt")
    (fun _ => (none : Option Nat)) id ([] : Store Nat) "1700.5" "T0"
    ⟨"health insurance", 0, "USA", false⟩ (Or.inl (by decide))

/-! ### C9: the export endpoint -/

/-- C9: `export_leads` fails with NotFound on an unknown identifier,
fails with the distinct not-completed error (reporting the current
status) on any job that is not Completed, and on a Completed job
returns exactly the result stored in the record. -/
theorem exportLeads_cases {ρ : Type} (s : Store ρ) (id : String) :
    (storeFind s id = none → exportLeads s id "json" = .notFound) ∧
    (∀ job : JobRecord ρ, storeFind s id = some job →
      job.status ≠ .completed →
      exportLeads s id "json" = .jobNotTerminal (statusString job.status)) ∧
    (∀ job : JobRecord ρ, storeFind s id = some job →
      job.status = .completed →
      exportLeads s id "json" = .payload job.result) := by
  refine ⟨?_, ?_, ?_⟩
  · intro h
    simp [exportLeads, h]
  · intro job hj hs
    have hne : statusString job.status ≠ "completed" := by
      cases hst : job.status
      · decide
      · decide
      · exact absurd hst hs
      · decide
    simp [exportLeads, hj, hne]
  · intro job hj hs
    simp [exportLeads, hj, hs, statusString]

/-- Witness for C9: export of a completed job returns the stored
result; export of a processing job reports the not-completed error;
export of an unknown id reports NotFound. -/
theorem exportLeads_cases_witness :
    exportLeads [("done", sampleCompletedRec)] "done" "json"
      = .payload (some 7) ∧
    exportLeads [("run", sampleProcessingRec)] "run" "json"
      = .jobNotTerminal "processing" ∧
    exportLeads ([] : Store Nat) "nope" "json" = .notFound := by
  refine ⟨?_, ?_, ?_⟩
  · exact (exportLeads_cases [("done", sampleCompletedRec)] "done").2.2
      sampleCompletedRec rfl rfl
  · exact (exportLeads_cases [("run", sampleProcessingRec)] "run").2.1
      sampleProcessingRec rfl (by decide)
  · exact (exportLeads_cases ([] : Store Nat) "nope").1 rfl

/-! ### C10: submit fails atomically when the API key is missing -/

/-- C10: when `GEMINI_API_KEY` is not configured (absent or empty), the
asynchronous submit rejects the request before allocating an identifier
or inserting a record: the store is returned unchanged, no background
task is scheduled, and no identifier is ever handed out. -/
theorem submitAsync_missing_key_atomic {ρ : Type}
    (apiKey : Option String) (s : Store ρ) (ts now : String)
    (raw : RawLeadRequest) (h : apiKeyMissing apiKey = true) :
    (submitAsync apiKey s ts now raw).store = s ∧
    (submitAsync apiKey s ts now raw).tasks = [] ∧
    ∀ id, (submitAsync apiKey s ts now raw).response ≠ .accepted id := by
  unfold submitAsync
  cases hv : validateLeadRequest raw with
  | error d => simp
  | ok req => simp [h]

/-- Witness for C10: with no API key configured, a valid submission
leaves the empty store empty, schedules nothing, and is not accepted. -/
theorem submitAsync_missing_key_atomic_witness :
    (submitAsync (none : Option String) ([] : Store Nat) "1700.5" "T0"
        sampleRawReq).store = [] ∧
    (submitAsync (none : Option String) ([] : Store Nat) "1700.5" "T0"
        sampleRawReq).tasks = [] ∧
    (submitAsync (none : Option String) ([] : Store Nat) "1700.5" "T0"
        sampleRawReq).response ≠ .accepted "job_1700.5_robotics" := by
  have h := submitAsync_missing_key_atomic (none : Option String)
    ([] : Store Nat) "1700.5" "T0" sampleRawReq rfl
  exact ⟨h.1, h.2.1, h.2.2 "job_1700.5_robotics"⟩

end LeadMagnet
